import Mathlib

/-!
# Formal model of the `trajectory_rs` baseball simulation core

This file is a shallow embedding, over the real numbers, of the Rust
library in `src/trajectory_rs/src/lib.rs`: the RK4 airborne trajectory
integrator with altitude-dependent wind shear and table-driven drag and
Magnus forces, and the ground-ball rolling and fielder-interception
model.  `f64` arithmetic is idealised as real arithmetic; `f64 → usize`
casts (which truncate toward zero and send negative values to zero)
become `Nat.floor`; Rust's saturating `usize` subtraction becomes
truncated subtraction on `ℕ`.  The bounded `while` loops of the source
are expressed by structural recursion on an explicit iteration budget
that matches the source's own loop bounds exactly.
-/

noncomputable section

namespace TrajectoryRs

/-- Gravity constant from the source, in m/s^2. -/
def GRAVITY : ℝ := 9.81

/-- Mass of an MLB baseball in kg. -/
def BALL_MASS : ℝ := 0.145

/-- Reference height for the wind shear model, meters. -/
def WIND_REF_HEIGHT_M : ℝ := 10.0

/-- Power law exponent of the wind shear model. -/
def WIND_SHEAR_EXPONENT : ℝ := 0.20

/-- Minimum height used by the wind shear model, meters. -/
def MIN_HEIGHT_M : ℝ := 1.0

/-- Cap on the wind shear amplification factor. -/
def MAX_WIND_MULTIPLIER : ℝ := 1.7

/-- Conversion factor meters to feet, as in the source. -/
def METERS_TO_FEET : ℝ := 3.28084

/-- Coefficient of restitution for grass. -/
def GROUND_BALL_COR_GRASS : ℝ := 0.45

/-- Coefficient of restitution for dirt. -/
def GROUND_BALL_COR_DIRT : ℝ := 0.50

/-- Rolling friction coefficient for grass. -/
def ROLLING_FRICTION_GRASS : ℝ := 0.30

/-- Rolling friction coefficient for dirt. -/
def ROLLING_FRICTION_DIRT : ℝ := 0.25

/-- Constant air-resistance deceleration for rolling balls, ft/s^2. -/
def GROUND_BALL_AIR_RESISTANCE : ℝ := 3.0

/-- Spin rate effect multiplier for rolling balls. -/
def GROUND_BALL_SPIN_EFFECT : ℝ := 0.08

/-- Fielder acceleration, ft/s^2. -/
def FIELDER_ACCELERATION : ℝ := 28.0

/-- Fielder maximum sprint speed, ft/s. -/
def FIELDER_MAX_SPEED : ℝ := 30.0

/-- Maximum charge bonus in feet. -/
def CHARGE_BONUS_MAX : ℝ := 20.0

/-- Lookup table minimum velocity, m/s. -/
def LUT_V_MIN : ℝ := 5.0

/-- Lookup table maximum velocity, m/s. -/
def LUT_V_MAX : ℝ := 60.0

/-- Lookup table velocity step, m/s. -/
def LUT_V_STEP : ℝ := 1.0

/-- Lookup table minimum spin, rpm. -/
def LUT_S_MIN : ℝ := 0.0

/-- Lookup table maximum spin, rpm. -/
def LUT_S_MAX : ℝ := 4000.0

/-- Lookup table spin step, rpm. -/
def LUT_S_STEP : ℝ := 50.0

/-- The largest finite `f64` value, used by the source as `f64::MAX`. -/
def F64_MAX : ℝ := 2 ^ 1024 - 2 ^ 971

/-- The most negative finite `f64` value, `f64::MIN`. -/
def F64_MIN : ℝ := -(2 ^ 1024 - 2 ^ 971)

/-- A 3-vector of reals, modelling `[f64; 3]`. -/
structure V3 where
  x : ℝ
  y : ℝ
  z : ℝ

/-- A 2-vector of reals, modelling `[f64; 2]`. -/
structure V2 where
  x : ℝ
  y : ℝ

/-- A 6-dimensional kinematic state `[x, y, z, vx, vy, vz]`, modelling
`[f64; 6]`.  The same shape is reused for state derivatives
`[vx, vy, vz, ax, ay, az]`, exactly as the source reuses `[f64; 6]`. -/
structure S6 where
  x : ℝ
  y : ℝ
  z : ℝ
  vx : ℝ
  vy : ℝ
  vz : ℝ

/-- A 2-D coefficient table, modelling an `ArrayView2<f64>`: a number of
rows and columns together with the stored entries.  Accesses outside the
stated dimensions model the out-of-bounds panics of `ndarray`; the entry
function is total, so every in- or out-of-range access yields a value and
out-of-range accesses are detected by comparing indices with the
dimensions. -/
structure Mat where
  nrows : ℕ
  ncols : ℕ
  entry : ℕ → ℕ → ℝ

/-- Rust's `f64::clamp(lo, hi)`: `min (max v lo) hi`. -/
def rclamp (v lo hi : ℝ) : ℝ := min (max v lo) hi

/-- The wind shear multiplier `clamp((max(h,1)/10)^0.20, 1.0, 1.7)`
computed inside `apply_wind_shear`. -/
def windShearMultiplier (height_m : ℝ) : ℝ :=
  rclamp ((max height_m MIN_HEIGHT_M / WIND_REF_HEIGHT_M) ^ WIND_SHEAR_EXPONENT)
    1 MAX_WIND_MULTIPLIER

/-- `apply_wind_shear`: scale a base wind vector by the altitude-dependent
wind shear multiplier. -/
def apply_wind_shear (base_wind : V3) (height_m : ℝ) : V3 :=
  let multiplier := windShearMultiplier height_m
  ⟨base_wind.x * multiplier, base_wind.y * multiplier, base_wind.z * multiplier⟩

/-- The clamped, floor-divided, index-clamped velocity cell index of
`lookup_cd_cl`.  `(v_clamped - LUT_V_MIN) / LUT_V_STEP) as usize` is
`Nat.floor` (the operand is nonnegative), and `saturating_sub` is
truncated `ℕ` subtraction. -/
def lookup_v_idx (velocity : ℝ) (nrows : ℕ) : ℕ :=
  let v_clamped := rclamp velocity LUT_V_MIN (LUT_V_MAX - LUT_V_STEP)
  min (Nat.floor ((v_clamped - LUT_V_MIN) / LUT_V_STEP)) (nrows - 2)

/-- The clamped, floor-divided, index-clamped spin cell index of
`lookup_cd_cl`. -/
def lookup_s_idx (spin_rpm : ℝ) (ncols : ℕ) : ℕ :=
  let s_clamped := rclamp spin_rpm LUT_S_MIN (LUT_S_MAX - LUT_S_STEP)
  min (Nat.floor ((s_clamped - LUT_S_MIN) / LUT_S_STEP)) (ncols - 2)

/-- The fractional interpolation weight along the velocity axis used by
`lookup_cd_cl`. -/
def lookup_v_frac (velocity : ℝ) (nrows : ℕ) : ℝ :=
  let v_clamped := rclamp velocity LUT_V_MIN (LUT_V_MAX - LUT_V_STEP)
  (v_clamped - (LUT_V_MIN + (lookup_v_idx velocity nrows : ℝ) * LUT_V_STEP)) / LUT_V_STEP

/-- The fractional interpolation weight along the spin axis used by
`lookup_cd_cl`. -/
def lookup_s_frac (spin_rpm : ℝ) (ncols : ℕ) : ℝ :=
  let s_clamped := rclamp spin_rpm LUT_S_MIN (LUT_S_MAX - LUT_S_STEP)
  (s_clamped - (LUT_S_MIN + (lookup_s_idx spin_rpm ncols : ℝ) * LUT_S_STEP)) / LUT_S_STEP

/-- `lookup_cd_cl`: bilinear interpolation of `(Cd, Cl)` from the two
coefficient tables.  As in the source, the cell indices and dimensions
used for clamping come from `cd_table` for both tables. -/
def lookup_cd_cl (velocity spin_rpm : ℝ) (cd_table cl_table : Mat) : ℝ × ℝ :=
  let v_idx := lookup_v_idx velocity cd_table.nrows
  let s_idx := lookup_s_idx spin_rpm cd_table.ncols
  let v_frac := lookup_v_frac velocity cd_table.nrows
  let s_frac := lookup_s_frac spin_rpm cd_table.ncols
  let cd00 := cd_table.entry v_idx s_idx
  let cd10 := cd_table.entry (v_idx + 1) s_idx
  let cd01 := cd_table.entry v_idx (s_idx + 1)
  let cd11 := cd_table.entry (v_idx + 1) (s_idx + 1)
  let cd := cd00 * (1 - v_frac) * (1 - s_frac)
          + cd10 * v_frac * (1 - s_frac)
          + cd01 * (1 - v_frac) * s_frac
          + cd11 * v_frac * s_frac
  let cl00 := cl_table.entry v_idx s_idx
  let cl10 := cl_table.entry (v_idx + 1) s_idx
  let cl01 := cl_table.entry v_idx (s_idx + 1)
  let cl11 := cl_table.entry (v_idx + 1) (s_idx + 1)
  let cl := cl00 * (1 - v_frac) * (1 - s_frac)
          + cl10 * v_frac * (1 - s_frac)
          + cl01 * (1 - v_frac) * s_frac
          + cl11 * v_frac * s_frac
  (cd, cl)

/-- `aerodynamic_force_with_wind`: drag plus Magnus force in Newtons,
computed from the velocity of the ball relative to the (already
altitude-adjusted) wind. -/
def aerodynamic_force_with_wind (velocity wind_velocity spin_axis : V3)
    (spin_rpm air_density cross_area : ℝ) (cd_table cl_table : Mat) : V3 :=
  let rel : V3 := ⟨velocity.x - wind_velocity.x, velocity.y - wind_velocity.y,
    velocity.z - wind_velocity.z⟩
  let v_rel_mag := Real.sqrt (rel.x ^ 2 + rel.y ^ 2 + rel.z ^ 2)
  if v_rel_mag < 1e-6 then ⟨0, 0, 0⟩
  else
    let v_rel_unit : V3 := ⟨rel.x / v_rel_mag, rel.y / v_rel_mag, rel.z / v_rel_mag⟩
    let cdcl := lookup_cd_cl v_rel_mag spin_rpm cd_table cl_table
    let drag_mag := 0.5 * cdcl.1 * air_density * cross_area * v_rel_mag * v_rel_mag
    let drag : V3 := ⟨-drag_mag * v_rel_unit.x, -drag_mag * v_rel_unit.y,
      -drag_mag * v_rel_unit.z⟩
    let magnus : V3 :=
      if 1 < spin_rpm then
        let spin_mag := Real.sqrt (spin_axis.x ^ 2 + spin_axis.y ^ 2 + spin_axis.z ^ 2)
        if 1e-6 < spin_mag then
          let spin_unit : V3 := ⟨spin_axis.x / spin_mag, spin_axis.y / spin_mag,
            spin_axis.z / spin_mag⟩
          let magnus_mag := 0.5 * cdcl.2 * air_density * cross_area * v_rel_mag * v_rel_mag
          let force_dir : V3 := ⟨v_rel_unit.y * spin_unit.z - v_rel_unit.z * spin_unit.y,
            v_rel_unit.z * spin_unit.x - v_rel_unit.x * spin_unit.z,
            v_rel_unit.x * spin_unit.y - v_rel_unit.y * spin_unit.x⟩
          let force_dir_mag :=
            Real.sqrt (force_dir.x ^ 2 + force_dir.y ^ 2 + force_dir.z ^ 2)
          if 1e-6 < force_dir_mag then
            ⟨magnus_mag * force_dir.x / force_dir_mag,
             magnus_mag * force_dir.y / force_dir_mag,
             magnus_mag * force_dir.z / force_dir_mag⟩
          else ⟨0, 0, 0⟩
        else ⟨0, 0, 0⟩
      else ⟨0, 0, 0⟩
    ⟨drag.x + magnus.x, drag.y + magnus.y, drag.z + magnus.z⟩

/-- `derivative`: the state derivative `[vx, vy, vz, ax, ay, az]`, with
gravity subtracted unconditionally from the vertical acceleration. -/
def derivative (state : S6) (force : V3) : S6 :=
  ⟨state.vx, state.vy, state.vz,
   force.x / BALL_MASS, force.y / BALL_MASS, force.z / BALL_MASS - GRAVITY⟩

/-- The `add_scaled` helper of `step_rk4_with_wind`: `state + scale * deriv`
componentwise. -/
def add_scaled (state deriv : S6) (scale : ℝ) : S6 :=
  ⟨state.x + scale * deriv.x, state.y + scale * deriv.y, state.z + scale * deriv.z,
   state.vx + scale * deriv.vx, state.vy + scale * deriv.vy, state.vz + scale * deriv.vz⟩

/-- `step_rk4_with_wind`: one classic RK4 step; each stage recomputes the
altitude-adjusted wind from that stage's height. -/
def step_rk4_with_wind (state : S6) (dt : ℝ) (base_wind_velocity spin_axis : V3)
    (spin_rpm air_density cross_area : ℝ) (cd_table cl_table : Mat) : S6 :=
  let wind1 := apply_wind_shear base_wind_velocity state.z
  let velocity1 : V3 := ⟨state.vx, state.vy, state.vz⟩
  let force1 := aerodynamic_force_with_wind velocity1 wind1 spin_axis spin_rpm
    air_density cross_area cd_table cl_table
  let k1 := derivative state force1
  let state2 := add_scaled state k1 (0.5 * dt)
  let wind2 := apply_wind_shear base_wind_velocity state2.z
  let velocity2 : V3 := ⟨state2.vx, state2.vy, state2.vz⟩
  let force2 := aerodynamic_force_with_wind velocity2 wind2 spin_axis spin_rpm
    air_density cross_area cd_table cl_table
  let k2 := derivative state2 force2
  let state3 := add_scaled state k2 (0.5 * dt)
  let wind3 := apply_wind_shear base_wind_velocity state3.z
  let velocity3 : V3 := ⟨state3.vx, state3.vy, state3.vz⟩
  let force3 := aerodynamic_force_with_wind velocity3 wind3 spin_axis spin_rpm
    air_density cross_area cd_table cl_table
  let k3 := derivative state3 force3
  let state4 := add_scaled state k3 dt
  let wind4 := apply_wind_shear base_wind_velocity state4.z
  let velocity4 : V3 := ⟨state4.vx, state4.vy, state4.vz⟩
  let force4 := aerodynamic_force_with_wind velocity4 wind4 spin_axis spin_rpm
    air_density cross_area cd_table cl_table
  let k4 := derivative state4 force4
  let dt6 := dt / 6
  ⟨state.x + dt6 * (k1.x + 2 * k2.x + 2 * k3.x + k4.x),
   state.y + dt6 * (k1.y + 2 * k2.y + 2 * k3.y + k4.y),
   state.z + dt6 * (k1.z + 2 * k2.z + 2 * k3.z + k4.z),
   state.vx + dt6 * (k1.vx + 2 * k2.vx + 2 * k3.vx + k4.vx),
   state.vy + dt6 * (k1.vy + 2 * k2.vy + 2 * k3.vy + k4.vy),
   state.vz + dt6 * (k1.vz + 2 * k2.vz + 2 * k3.vz + k4.vz)⟩

/-- `step_rk4`: the wind-free RK4 step, delegating to the wind-aware step
with a constant zero wind vector, exactly as in the source. -/
def step_rk4 (state : S6) (dt : ℝ) (spin_axis : V3)
    (spin_rpm air_density cross_area : ℝ) (cd_table cl_table : Mat) : S6 :=
  step_rk4_with_wind state dt ⟨0, 0, 0⟩ spin_axis spin_rpm air_density cross_area
    cd_table cl_table

/-- One emitted trajectory point: position, velocity, elapsed time.  The
source stores these in three parallel vectors; a single list of samples
is the same data. -/
structure Sample where
  pos : V3
  vel : V3
  time : ℝ

/-- The integration loop of `integrate_single_trajectory_with_wind`.
`fuel` is the remaining sample budget `max_steps - 1 - positions.len()`,
so `0 < fuel` is exactly the source's `positions.len() < max_steps - 1`
check; `current_time` and `state` are the loop variables, and `acc` holds
the emitted samples most recent first (the source's vectors are
`acc.reverse`).  After each RK4 step the raw sample is pushed; if the new
height is at or below ground level, a landing sample interpolated at the
fractional crossing point is additionally pushed when the height change
exceeds `1e-10`, and the loop breaks in either case. -/
def trajLoop (dt max_time ground_level : ℝ) (wind_velocity spin_axis : V3)
    (spin_rpm air_density cross_area : ℝ) (cd_table cl_table : Mat) :
    ℕ → ℝ → S6 → List Sample → List Sample
  | 0, _, _, acc => acc.reverse
  | fuel + 1, current_time, state, acc =>
    if current_time < max_time then
      let state2 := step_rk4_with_wind state dt wind_velocity spin_axis spin_rpm
        air_density cross_area cd_table cl_table
      let t2 := current_time + dt
      let raw : Sample := ⟨⟨state2.x, state2.y, state2.z⟩, ⟨state2.vx, state2.vy, state2.vz⟩, t2⟩
      if state2.z ≤ ground_level then
        if 1e-10 < |state2.z - state.z| then
          let fraction := (ground_level - state.z) / (state2.z - state.z)
          let interp : Sample :=
            ⟨⟨state.x + fraction * (state2.x - state.x),
              state.y + fraction * (state2.y - state.y), ground_level⟩,
             ⟨state.vx + fraction * (state2.vx - state.vx),
              state.vy + fraction * (state2.vy - state.vy),
              state.vz + fraction * (state2.vz - state.vz)⟩,
             current_time + fraction * dt⟩
          (interp :: raw :: acc).reverse
        else (raw :: acc).reverse
      else
        trajLoop dt max_time ground_level wind_velocity spin_axis spin_rpm
          air_density cross_area cd_table cl_table fuel t2 state2 (raw :: acc)
    else acc.reverse

/-- `integrate_single_trajectory_with_wind`: integrate from the initial
state until ground contact, `max_time`, or the `max_steps` sample cap,
with `max_steps = (max_time / dt) as usize + 10`. -/
def integrate_single_trajectory_with_wind (initial_state : S6)
    (dt max_time ground_level : ℝ) (wind_velocity spin_axis : V3)
    (spin_rpm air_density cross_area : ℝ) (cd_table cl_table : Mat) : List Sample :=
  let max_steps := Nat.floor (max_time / dt) + 10
  let s0 : Sample := ⟨⟨initial_state.x, initial_state.y, initial_state.z⟩,
    ⟨initial_state.vx, initial_state.vy, initial_state.vz⟩, 0⟩
  trajLoop dt max_time ground_level wind_velocity spin_axis spin_rpm air_density
    cross_area cd_table cl_table (max_steps - 1 - 1) 0 initial_state [s0]

/-- `integrate_single_trajectory`: the no-wind driver, delegating to the
wind-aware driver with wind `[0, 0, 0]`, exactly as in the source. -/
def integrate_single_trajectory (initial_state : S6) (dt max_time ground_level : ℝ)
    (spin_axis : V3) (spin_rpm air_density cross_area : ℝ)
    (cd_table cl_table : Mat) : List Sample :=
  integrate_single_trajectory_with_wind initial_state dt max_time ground_level
    ⟨0, 0, 0⟩ spin_axis spin_rpm air_density cross_area cd_table cl_table

/-- `GroundBallResult`: landing position, landing speed (mph), unit travel
direction, landing time, rolling friction, and spin-curve coefficient. -/
structure GroundBallResult where
  landing_position : V2
  landing_velocity_mph : ℝ
  direction : V2
  landing_time : ℝ
  friction : ℝ
  spin_effect : ℝ

/-- `ball_position_at_time`: position and speed (mph) of the rolling ball
at a given time after landing. -/
def ball_position_at_time (result : GroundBallResult) (time_after_landing : ℝ) :
    V2 × ℝ :=
  if time_after_landing ≤ 0 then (result.landing_position, result.landing_velocity_mph)
  else
    let decel := GRAVITY * METERS_TO_FEET * result.friction + GROUND_BALL_AIR_RESISTANCE
    let v0_fps := result.landing_velocity_mph * 5280 / 3600
    let time_to_stop := v0_fps / decel
    let effective_time := min time_after_landing time_to_stop
    let distance := v0_fps * effective_time - 0.5 * decel * effective_time * effective_time
    let curve_factor := result.spin_effect * effective_time * 0.1
    let curved_dir : V2 := ⟨result.direction.x - curve_factor * result.direction.y,
      result.direction.y + curve_factor * result.direction.x⟩
    let dir_mag := Real.sqrt (curved_dir.x ^ 2 + curved_dir.y ^ 2)
    let normalized_dir : V2 :=
      if 1e-6 < dir_mag then ⟨curved_dir.x / dir_mag, curved_dir.y / dir_mag⟩
      else result.direction
    let pos : V2 := ⟨result.landing_position.x + distance * normalized_dir.x,
      result.landing_position.y + distance * normalized_dir.y⟩
    let current_velocity_fps := max (v0_fps - decel * effective_time) 0
    (pos, current_velocity_fps * 3600 / 5280)

/-- The time at which the rolling ball stops: initial speed (ft/s) divided
by the total deceleration, as computed inside `ball_position_at_time`. -/
def rollingStopTime (result : GroundBallResult) : ℝ :=
  (result.landing_velocity_mph * 5280 / 3600) /
    (GRAVITY * METERS_TO_FEET * result.friction + GROUND_BALL_AIR_RESISTANCE)

/-- `fielder_travel_time`: reaction time plus a two-phase
accelerate-then-sprint travel model. -/
def fielder_travel_time (distance_ft sprint_speed_fps reaction_time acceleration : ℝ) : ℝ :=
  if distance_ft ≤ 0 then reaction_time
  else
    let max_speed := min sprint_speed_fps FIELDER_MAX_SPEED
    let accel_distance := max_speed * max_speed / (2 * acceleration)
    let travel_time :=
      if distance_ft ≤ accel_distance then Real.sqrt (2 * distance_ft / acceleration)
      else
        let time_to_max := max_speed / acceleration
        let remaining_distance := distance_ft - accel_distance
        time_to_max + remaining_distance / max_speed
    reaction_time + travel_time

/-- `calculate_charge_bonus`: effective distance reduction from forward
positioning, from clamped multiplicative factors. -/
def calculate_charge_bonus (exit_velocity_mph distance_to_landing sprint_speed_fps : ℝ) : ℝ :=
  let velocity_factor := rclamp (1 - (exit_velocity_mph - 60) / 60) 0.2 1.0
  let distance_factor := rclamp (distance_to_landing / 150) 0.3 1.0
  let speed_factor := sprint_speed_fps / 27
  min (CHARGE_BONUS_MAX * velocity_factor * distance_factor * speed_factor) CHARGE_BONUS_MAX

/-- `InterceptionResult` for a single fielder.  The `can_intercept` flag is
modelled as a proposition. -/
structure InterceptionResult where
  can_intercept : Prop
  interception_point : V2
  fielder_time : ℝ
  ball_time : ℝ
  margin : ℝ
  ball_velocity_mph : ℝ

/-- The initial `best_result` of `find_fielder_interception`: unreachable,
`fielder_time = f64::MAX`, `ball_time = 0`, `margin = f64::MIN`. -/
def interceptInit : InterceptionResult := ⟨False, ⟨0, 0⟩, F64_MAX, 0, F64_MIN, 0⟩

/-- The grid-search loop of `find_fielder_interception`: test the rolling
ball every 50 ms out to 6 s (the source's `while test_time <= 6.0` with
`test_time += 0.05`), break once ball speed drops below 0.1 mph, and keep
the sample with the greatest margin.  `fuel` is an iteration budget; the
driver passes 122, enough that the loop always exits through the
`test_time ≤ 6` test exactly as the source's loop does. -/
def interceptLoop (ground_ball : GroundBallResult)
    (fielder_x fielder_y sprint_speed_fps reaction_time charge_bonus : ℝ) :
    ℕ → ℝ → InterceptionResult → InterceptionResult
  | 0, _, best => best
  | fuel + 1, test_time, best =>
    if test_time ≤ 6 then
      let bp := ball_position_at_time ground_ball test_time
      if bp.2 < 0.1 then best
      else
        let dx := bp.1.x - fielder_x
        let dy := bp.1.y - fielder_y
        let distance := Real.sqrt (dx * dx + dy * dy)
        let effective_distance := max (distance - charge_bonus) 0
        let fielder_time := fielder_travel_time effective_distance sprint_speed_fps
          reaction_time FIELDER_ACCELERATION
        let total_ball_time := ground_ball.landing_time + test_time
        let margin := total_ball_time - fielder_time
        let best2 :=
          if best.margin < margin then
            (⟨0 ≤ margin, bp.1, fielder_time, total_ball_time, margin, bp.2⟩ :
              InterceptionResult)
          else best
        interceptLoop ground_ball fielder_x fielder_y sprint_speed_fps reaction_time
          charge_bonus fuel (test_time + 0.05) best2
    else best

/-- `find_fielder_interception`: run the 50 ms grid search from
`test_time = 0` with the sentinel initial best result. -/
def find_fielder_interception (ground_ball : GroundBallResult)
    (fielder_x fielder_y sprint_speed_fps reaction_time charge_bonus : ℝ) :
    InterceptionResult :=
  interceptLoop ground_ball fielder_x fielder_y sprint_speed_fps reaction_time
    charge_bonus 122 0 interceptInit

/-- The loop state of the bouncing phase of `simulate_ground_ball_initial`:
position, vertical speed, horizontal speed, elapsed time (all ft, ft/s, s). -/
structure BounceState where
  pos : V2
  vz : ℝ
  vh : ℝ
  time : ℝ

/-- The bouncing loop of `simulate_ground_ball_initial`: up to 3 bounces
(`fuel` starts at 3, matching `bounces < 3`) while vertical speed exceeds
1 ft/s.  An upward-moving ball makes a symmetric parabolic hop, losing
vertical speed to the restitution coefficient and a small fraction of
horizontal speed; a downward-moving ball (first impact) is reflected with
the restitution coefficient. -/
def bounceLoop (cor friction g : ℝ) (direction : V2) : ℕ → BounceState → BounceState
  | 0, st => st
  | fuel + 1, st =>
    if 1 < |st.vz| then
      if 0 < st.vz then
        let t_up := st.vz / g
        let t_air := t_up + t_up
        let distance := st.vh * t_air
        bounceLoop cor friction g direction fuel
          ⟨⟨st.pos.x + distance * direction.x, st.pos.y + distance * direction.y⟩,
           st.vz * cor, st.vh * (1 - friction * 0.1), st.time + t_air⟩
      else
        bounceLoop cor friction g direction fuel ⟨st.pos, -st.vz * cor, st.vh, st.time⟩
    else st

/-- `simulate_ground_ball_initial`: convert the launch velocity to ft/s,
derive the travel direction and spin effect, run the bouncing phase, and
package the rolling parameters. -/
def simulate_ground_ball_initial (x0 y0 vx_mph vy_mph vz_mph spin_rpm : ℝ)
    (is_grass : Bool) : GroundBallResult :=
  let cor := if is_grass then GROUND_BALL_COR_GRASS else GROUND_BALL_COR_DIRT
  let friction := if is_grass then ROLLING_FRICTION_GRASS else ROLLING_FRICTION_DIRT
  let vx_fps := vx_mph * 5280 / 3600
  let vy_fps := vy_mph * 5280 / 3600
  let vz_fps := vz_mph * 5280 / 3600
  let vh_fps := Real.sqrt (vx_fps * vx_fps + vy_fps * vy_fps)
  let spin_effect := spin_rpm / 1000 * GROUND_BALL_SPIN_EFFECT
  let dir_mag := if 1e-6 < vh_fps then vh_fps else 1
  let direction : V2 := ⟨vx_fps / dir_mag, vy_fps / dir_mag⟩
  let g := GRAVITY * METERS_TO_FEET
  let fin := bounceLoop cor friction g direction 3 ⟨⟨x0, y0⟩, vz_fps, vh_fps, 0⟩
  ⟨fin.pos, fin.vh * 3600 / 5280, direction, fin.time, friction, spin_effect⟩

/-- An all-zero coefficient table of the nominal 55 by 80 grid dimensions
(velocity axis 5..59 m/s step 1, spin axis 0..3950 rpm step 50). -/
def zeroMat : Mat := ⟨55, 80, fun _ _ => 0⟩

/-- The concrete 2 by 2 coefficient table used to exhibit bilinear
extrapolation on undersized tables: rows 0 hold value 0, rows 1 hold 1. -/
def c2Mat : Mat := ⟨2, 2, fun i _ => if i = 0 then 0 else 1⟩

/-- A concrete rolling state whose speed is already below the 0.1 mph
cutoff at landing while its landing time is positive. -/
def c4GB : GroundBallResult := ⟨⟨0, 0⟩, 0, ⟨1, 0⟩, 1, 0.3, 0⟩

/-! ## Helper lemmas -/

/-- Looking anything up in the all-zero table yields `(0, 0)`. -/
theorem lookup_cd_cl_zeroMat (velocity spin_rpm : ℝ) :
    lookup_cd_cl velocity spin_rpm zeroMat zeroMat = (0, 0) := by
  simp [lookup_cd_cl, zeroMat]

/-- With the all-zero coefficient tables and a spin rate of at most 1 rpm
the aerodynamic force vanishes for every velocity and wind. -/
theorem aerodynamic_force_zeroMat (velocity wind_velocity spin_axis : V3)
    (spin_rpm air_density cross_area : ℝ) (h : ¬ (1 : ℝ) < spin_rpm) :
    aerodynamic_force_with_wind velocity wind_velocity spin_axis spin_rpm air_density
      cross_area zeroMat zeroMat = ⟨0, 0, 0⟩ := by
  simp [aerodynamic_force_with_wind, lookup_cd_cl_zeroMat, h]

/-- With the all-zero coefficient tables and a spin rate of at most 1 rpm
the RK4 step is the exact constant-gravity update. -/
theorem step_rk4_with_wind_zeroMat (state : S6) (dt : ℝ) (wind_velocity spin_axis : V3)
    (spin_rpm air_density cross_area : ℝ) (h : ¬ (1 : ℝ) < spin_rpm) :
    step_rk4_with_wind state dt wind_velocity spin_axis spin_rpm air_density cross_area
      zeroMat zeroMat =
      ⟨state.x + dt * state.vx, state.y + dt * state.vy,
       state.z + dt * state.vz - GRAVITY * dt ^ 2 / 2,
       state.vx, state.vy, state.vz - GRAVITY * dt⟩ := by
  have hf : ∀ v w : V3, aerodynamic_force_with_wind v w spin_axis spin_rpm air_density
      cross_area zeroMat zeroMat = ⟨0, 0, 0⟩ :=
    fun v w => aerodynamic_force_zeroMat v w spin_axis spin_rpm air_density cross_area h
  simp only [step_rk4_with_wind, hf, derivative, add_scaled, S6.mk.injEq]
  refine ⟨by ring, by ring, ?_, by ring, by ring, ?_⟩ <;> · simp only [zero_div]; ring

/-! ## Claims -/

/-- Claim C3: integrating with wind velocity `[0, 0, 0]` produces exactly
the same sample sequence as the no-wind integrator on the same inputs, and
likewise the no-wind RK4 step agrees with the wind-aware step at zero
wind; in the source the no-wind entry points delegate to the wind-aware
ones with a zero wind vector. -/
theorem c3_no_wind_equivalence (initial_state : S6) (dt max_time ground_level : ℝ)
    (spin_axis : V3) (spin_rpm air_density cross_area : ℝ) (cd_table cl_table : Mat) :
    integrate_single_trajectory initial_state dt max_time ground_level spin_axis
        spin_rpm air_density cross_area cd_table cl_table =
      integrate_single_trajectory_with_wind initial_state dt max_time ground_level
        ⟨0, 0, 0⟩ spin_axis spin_rpm air_density cross_area cd_table cl_table ∧
    ∀ s : S6, step_rk4 s dt spin_axis spin_rpm air_density cross_area cd_table cl_table =
      step_rk4_with_wind s dt ⟨0, 0, 0⟩ spin_axis spin_rpm air_density cross_area
        cd_table cl_table :=
  ⟨rfl, fun _ => rfl⟩

/-- Claim C10: querying the rolling position at any elapsed time at or
before 0 returns exactly the landing position and the landing speed. -/
theorem c10_query_at_nonpositive_time (gb : GroundBallResult) (t : ℝ) (ht : t ≤ 0) :
    ball_position_at_time gb t = (gb.landing_position, gb.landing_velocity_mph) := by
  rw [ball_position_at_time, if_pos ht]

/-- Witness for C10 at the concrete state
`⟨⟨3, 4⟩, 7, ⟨0, 1⟩, 2, 0.25, 0.1⟩` and time `-1`. -/
theorem c10_query_at_nonpositive_time_witness :
    ball_position_at_time ⟨⟨3, 4⟩, 7, ⟨0, 1⟩, 2, 0.25, 0.1⟩ (-1) = (⟨3, 4⟩, 7) :=
  c10_query_at_nonpositive_time ⟨⟨3, 4⟩, 7, ⟨0, 1⟩, 2, 0.25, 0.1⟩ (-1) (by norm_num)

/-- Claim C5: the wind shear multiplier always lies in `[1.0, 1.7]`, is
non-decreasing in height, and `apply_wind_shear` scales all three wind
components uniformly by that single scalar. -/
theorem c5_wind_shear (w : V3) (h1 h2 : ℝ) (hle : h1 ≤ h2) :
    (1 ≤ windShearMultiplier h1 ∧ windShearMultiplier h1 ≤ 1.7) ∧
    windShearMultiplier h1 ≤ windShearMultiplier h2 ∧
    apply_wind_shear w h1 =
      ⟨w.x * windShearMultiplier h1, w.y * windShearMultiplier h1,
       w.z * windShearMultiplier h1⟩ := by
  refine ⟨⟨?_, ?_⟩, ?_, rfl⟩
  · exact le_min (le_max_right _ _) (by norm_num [MAX_WIND_MULTIPLIER])
  · simp [windShearMultiplier, rclamp, MAX_WIND_MULTIPLIER]
  · unfold windShearMultiplier rclamp
    have h0 : (0 : ℝ) ≤ max h1 MIN_HEIGHT_M / WIND_REF_HEIGHT_M :=
      div_nonneg (le_trans (by norm_num [MIN_HEIGHT_M]) (le_max_right _ _))
        (by norm_num [WIND_REF_HEIGHT_M])
    have hb : max h1 MIN_HEIGHT_M / WIND_REF_HEIGHT_M ≤ max h2 MIN_HEIGHT_M / WIND_REF_HEIGHT_M := by
      have := max_le_max hle (le_refl MIN_HEIGHT_M)
      have hw : (0 : ℝ) < WIND_REF_HEIGHT_M := by norm_num [WIND_REF_HEIGHT_M]
      exact (div_le_div_iff_of_pos_right hw).mpr this
    exact min_le_min
      (max_le_max (Real.rpow_le_rpow h0 hb (by norm_num [WIND_SHEAR_EXPONENT])) le_rfl) le_rfl

/-- Witness for C5 at wind `⟨1, 2, 3⟩` and heights 2 and 5. -/
theorem c5_wind_shear_witness :
    ((1 ≤ windShearMultiplier 2 ∧ windShearMultiplier 2 ≤ 1.7) ∧
     windShearMultiplier 2 ≤ windShearMultiplier 5 ∧
     apply_wind_shear ⟨1, 2, 3⟩ 2 =
       ⟨1 * windShearMultiplier 2, 2 * windShearMultiplier 2, 3 * windShearMultiplier 2⟩) :=
  c5_wind_shear ⟨1, 2, 3⟩ 2 5 (by norm_num)

/-- Claim C9: the source performs no coefficient-table size validation;
for a table with a single row and a single column, the bilinear lookup
reads row index `v_idx + 1 = 1` and column index `s_idx + 1 = 1`, both
equal to the table's dimension and hence out of bounds (an `ndarray`
panic mid-integration), instead of any error being returned before
integration begins. -/
theorem c9_no_table_size_check (velocity spin_rpm : ℝ) :
    lookup_v_idx velocity 1 + 1 = 1 ∧ lookup_s_idx spin_rpm 1 + 1 = 1 := by
  constructor <;> simp [lookup_v_idx, lookup_s_idx]

/-- Claim C1 (amended): at any point of an integration run with budget
remaining, if the RK4 step's new height is at or below ground level, then:
when the height change exceeds `1e-10` the driver appends the raw sample
followed by a final sample whose position, velocity and time are linearly
interpolated to the fractional crossing point (with final height exactly
`ground_level`) and terminates; when the height change is `1e-10` or less
the raw post-step sample is kept as the final sample and the driver also
terminates (it does not continue integrating). -/
theorem c1_ground_contact_amended (dt max_time ground_level : ℝ)
    (wind_velocity spin_axis : V3) (spin_rpm air_density cross_area : ℝ)
    (cd_table cl_table : Mat) (fuel : ℕ) (t : ℝ) (s s2 : S6) (acc : List Sample)
    (hs2 : s2 = step_rk4_with_wind s dt wind_velocity spin_axis spin_rpm air_density
      cross_area cd_table cl_table)
    (ht : t < max_time) (hz : s2.z ≤ ground_level) :
    trajLoop dt max_time ground_level wind_velocity spin_axis spin_rpm air_density
        cross_area cd_table cl_table (fuel + 1) t s acc =
      if 1e-10 < |s2.z - s.z| then
        (⟨⟨s.x + (ground_level - s.z) / (s2.z - s.z) * (s2.x - s.x),
           s.y + (ground_level - s.z) / (s2.z - s.z) * (s2.y - s.y),
           ground_level⟩,
          ⟨s.vx + (ground_level - s.z) / (s2.z - s.z) * (s2.vx - s.vx),
           s.vy + (ground_level - s.z) / (s2.z - s.z) * (s2.vy - s.vy),
           s.vz + (ground_level - s.z) / (s2.z - s.z) * (s2.vz - s.vz)⟩,
          t + (ground_level - s.z) / (s2.z - s.z) * dt⟩ ::
         ⟨⟨s2.x, s2.y, s2.z⟩, ⟨s2.vx, s2.vy, s2.vz⟩, t + dt⟩ :: acc).reverse
      else (⟨⟨s2.x, s2.y, s2.z⟩, ⟨s2.vx, s2.vy, s2.vz⟩, t + dt⟩ :: acc).reverse := by
  subst hs2
  simp only [trajLoop]
  rw [if_pos ht, if_pos hz]

/-- Witness for C1 at a concrete run: zero initial state, `dt = 1`,
`max_time = 2`, ground level 0, zero wind and spin, all-zero tables; the
RK4 step lands at height `-4.905`. -/
theorem c1_ground_contact_amended_witness :
    trajLoop 1 2 0 ⟨0, 0, 0⟩ ⟨0, 0, 1⟩ 0 1 1 zeroMat zeroMat 1 0
        ⟨0, 0, 0, 0, 0, 0⟩ [] =
      if 1e-10 < |(-4.905 : ℝ) - 0| then
        (⟨⟨0 + (0 - 0) / (-4.905 - 0) * (0 - 0),
           0 + (0 - 0) / (-4.905 - 0) * (0 - 0), 0⟩,
          ⟨0 + (0 - 0) / (-4.905 - 0) * (0 - 0),
           0 + (0 - 0) / (-4.905 - 0) * (0 - 0),
           0 + (0 - 0) / (-4.905 - 0) * (-9.81 - 0)⟩,
          0 + (0 - 0) / (-4.905 - 0) * 1⟩ ::
         ⟨⟨0, 0, -4.905⟩, ⟨0, 0, -9.81⟩, 0 + 1⟩ :: []).reverse
      else (⟨⟨0, 0, -4.905⟩, ⟨0, 0, -9.81⟩, 0 + 1⟩ :: []).reverse := by
  have hs2 : (⟨0, 0, -4.905, 0, 0, -9.81⟩ : S6) =
      step_rk4_with_wind ⟨0, 0, 0, 0, 0, 0⟩ 1 ⟨0, 0, 0⟩ ⟨0, 0, 1⟩ 0 1 1 zeroMat zeroMat := by
    rw [step_rk4_with_wind_zeroMat _ _ _ _ _ _ _ (by norm_num)]
    simp only [S6.mk.injEq, GRAVITY]
    norm_num
  exact c1_ground_contact_amended 1 2 0 ⟨0, 0, 0⟩ ⟨0, 0, 1⟩ 0 1 1 zeroMat zeroMat 0 0
    ⟨0, 0, 0, 0, 0, 0⟩ ⟨0, 0, -4.905, 0, 0, -9.81⟩ [] hs2 (by norm_num) (by norm_num)

/-- Counterexample for C1 as stated: with zero initial state, `dt = 1e-6`,
`max_time = 2e-6`, ground level 0, zero wind and spin and all-zero tables,
the first RK4 step ends at height `-4.905e-12 ≤ 0` with height change
`4.905e-12 ≤ 1e-10`; the driver keeps the raw post-step sample but
terminates with exactly these two samples, although the elapsed time
`1e-6` is still below `max_time` and the final height is below ground
level — integration does not continue as the claim states. -/
theorem c1_counterexample :
    integrate_single_trajectory_with_wind ⟨0, 0, 0, 0, 0, 0⟩ 1e-6 2e-6 0 ⟨0, 0, 0⟩
        ⟨0, 0, 1⟩ 0 1 1 zeroMat zeroMat =
      [⟨⟨0, 0, 0⟩, ⟨0, 0, 0⟩, 0⟩,
       ⟨⟨0, 0, -4.905e-12⟩, ⟨0, 0, -9.81e-6⟩, 1e-6⟩] ∧
    |(-4.905e-12 : ℝ) - 0| ≤ 1e-10 ∧ (1e-6 : ℝ) < 2e-6 ∧ (-4.905e-12 : ℝ) ≠ 0 := by
  refine ⟨?_, by norm_num [abs_le], by norm_num, by norm_num⟩
  simp only [integrate_single_trajectory_with_wind]
  have hfl : Nat.floor ((2e-6 : ℝ) / 1e-6) + 10 - 1 - 1 = 9 + 1 := by norm_num
  rw [hfl]
  rw [trajLoop]
  rw [if_pos (by norm_num : (0 : ℝ) < 2e-6)]
  rw [show step_rk4_with_wind ⟨0, 0, 0, 0, 0, 0⟩ 1e-6 ⟨0, 0, 0⟩ ⟨0, 0, 1⟩ 0 1 1
        zeroMat zeroMat = (⟨0, 0, -4.905e-12, 0, 0, -9.81e-6⟩ : S6) by
      rw [step_rk4_with_wind_zeroMat _ _ _ _ _ _ _ (by norm_num)]
      simp only [S6.mk.injEq, GRAVITY]
      norm_num]
  rw [if_pos (by norm_num : ((⟨0, 0, -4.905e-12, 0, 0, -9.81e-6⟩ : S6).z ≤ 0))]
  rw [if_neg (by norm_num [abs_le] : ¬ (1e-10 : ℝ) <
    |(⟨0, 0, -4.905e-12, 0, 0, -9.81e-6⟩ : S6).z - (⟨0, 0, 0, 0, 0, 0⟩ : S6).z|)]
  simp

/-- Each loop iteration emits at most one raw sample plus possibly one
final interpolated sample, so the emitted list is bounded by the
accumulated samples plus the remaining budget plus one. -/
theorem trajLoop_length_le (dt max_time ground_level : ℝ) (wind_velocity spin_axis : V3)
    (spin_rpm air_density cross_area : ℝ) (cd_table cl_table : Mat) :
    ∀ (fuel : ℕ) (t : ℝ) (s : S6) (acc : List Sample),
      (trajLoop dt max_time ground_level wind_velocity spin_axis spin_rpm air_density
        cross_area cd_table cl_table fuel t s acc).length ≤ acc.length + fuel + 1 := by
  intro fuel
  induction fuel with
  | zero =>
    intro t s acc
    simp [trajLoop]
  | succ f ih =>
    intro t s acc
    simp only [trajLoop]
    split_ifs with h1 h2 h3
    · simp only [List.length_reverse, List.length_cons]
      omega
    · simp only [List.length_reverse, List.length_cons]
      omega
    · refine le_trans (ih _ _ _) ?_
      simp only [List.length_cons]
      omega
    · simp only [List.length_reverse]
      omega

/-- Claim C7: for every input with `dt > 0` the driver terminates with at
most `(max_time / dt) as usize + 10` samples (the source's `max_steps`),
and when `max_time` is also nonnegative the count is at most the real
bound `max_time / dt + 10`. -/
theorem c7_sample_bound (initial_state : S6) (dt max_time ground_level : ℝ)
    (wind_velocity spin_axis : V3) (spin_rpm air_density cross_area : ℝ)
    (cd_table cl_table : Mat) (hdt : 0 < dt) :
    (integrate_single_trajectory_with_wind initial_state dt max_time ground_level
        wind_velocity spin_axis spin_rpm air_density cross_area cd_table
        cl_table).length ≤ Nat.floor (max_time / dt) + 10 ∧
    (0 ≤ max_time →
      ((integrate_single_trajectory_with_wind initial_state dt max_time ground_level
        wind_velocity spin_axis spin_rpm air_density cross_area cd_table
        cl_table).length : ℝ) ≤ max_time / dt + 10) := by
  have hlen := trajLoop_length_le dt max_time ground_level wind_velocity spin_axis
    spin_rpm air_density cross_area cd_table cl_table
    (Nat.floor (max_time / dt) + 10 - 1 - 1) 0 initial_state
    [⟨⟨initial_state.x, initial_state.y, initial_state.z⟩,
      ⟨initial_state.vx, initial_state.vy, initial_state.vz⟩, 0⟩]
  have hnat : (integrate_single_trajectory_with_wind initial_state dt max_time
      ground_level wind_velocity spin_axis spin_rpm air_density cross_area cd_table
      cl_table).length ≤ Nat.floor (max_time / dt) + 10 := by
    simp only [integrate_single_trajectory_with_wind]
    simp only [List.length_cons, List.length_nil] at hlen
    calc (trajLoop dt max_time ground_level wind_velocity spin_axis spin_rpm
          air_density cross_area cd_table cl_table
          (Nat.floor (max_time / dt) + 10 - 1 - 1) 0 initial_state _).length
        ≤ 0 + 1 + (Nat.floor (max_time / dt) + 10 - 1 - 1) + 1 := hlen
      _ ≤ Nat.floor (max_time / dt) + 10 := by omega
  refine ⟨hnat, fun hmt => ?_⟩
  have hfl : ((Nat.floor (max_time / dt) : ℝ)) ≤ max_time / dt :=
    Nat.floor_le (div_nonneg hmt hdt.le)
  have hcast : ((integrate_single_trajectory_with_wind initial_state dt max_time
      ground_level wind_velocity spin_axis spin_rpm air_density cross_area cd_table
      cl_table).length : ℝ) ≤ ((Nat.floor (max_time / dt) + 10 : ℕ) : ℝ) := by
    exact_mod_cast hnat
  push_cast at hcast
  linarith

/-- Witness for C7 at a concrete call with `dt = 1`, `max_time = 1`. -/
theorem c7_sample_bound_witness :
    (integrate_single_trajectory_with_wind ⟨0, 0, 0, 0, 0, 0⟩ 1 1 0 ⟨0, 0, 0⟩
        ⟨0, 0, 1⟩ 0 1 1 zeroMat zeroMat).length ≤ Nat.floor ((1 : ℝ) / 1) + 10 ∧
    ((0 : ℝ) ≤ 1 →
      ((integrate_single_trajectory_with_wind ⟨0, 0, 0, 0, 0, 0⟩ 1 1 0 ⟨0, 0, 0⟩
        ⟨0, 0, 1⟩ 0 1 1 zeroMat zeroMat).length : ℝ) ≤ 1 / 1 + 10) :=
  c7_sample_bound ⟨0, 0, 0, 0, 0, 0⟩ 1 1 0 ⟨0, 0, 0⟩ ⟨0, 0, 1⟩ 0 1 1 zeroMat zeroMat
    (by norm_num)

/-- The interception grid search only ever records candidates whose ball
time is `landing_time` plus a nonnegative sample offset, so from any
invariant-satisfying best result it produces an invariant-satisfying one. -/
theorem interceptLoop_ball_time (gb : GroundBallResult)
    (fx fy sp rt cb : ℝ) :
    ∀ (fuel : ℕ) (t : ℝ) (best : InterceptionResult), 0 ≤ t →
      (best.ball_time = 0 ∨ gb.landing_time ≤ best.ball_time) →
      ((interceptLoop gb fx fy sp rt cb fuel t best).ball_time = 0 ∨
        gb.landing_time ≤ (interceptLoop gb fx fy sp rt cb fuel t best).ball_time) := by
  intro fuel
  induction fuel with
  | zero =>
    intro t best ht hb
    simpa [interceptLoop] using hb
  | succ f ih =>
    intro t best ht hb
    simp only [interceptLoop]
    split_ifs with h1 h2 hm
    · exact hb
    · exact ih (t + 0.05) _ (by linarith)
        (Or.inr (show gb.landing_time ≤ gb.landing_time + t by linarith))
    · exact ih (t + 0.05) _ (by linarith) hb
    · exact hb

/-- Claim C4 (amended): the interception search returns a `ball_time` that
is either the initial placeholder `0.0` (possible when the rolling speed
is already below the 0.1 mph cutoff at the first sample, or when no sample
beats the placeholder margin) or at least the ball's `landing_time`. -/
theorem c4_ball_time_amended (gb : GroundBallResult)
    (fielder_x fielder_y sprint_speed_fps reaction_time charge_bonus : ℝ) :
    (find_fielder_interception gb fielder_x fielder_y sprint_speed_fps reaction_time
        charge_bonus).ball_time = 0 ∨
      gb.landing_time ≤ (find_fielder_interception gb fielder_x fielder_y
        sprint_speed_fps reaction_time charge_bonus).ball_time := by
  unfold find_fielder_interception
  exact interceptLoop_ball_time gb fielder_x fielder_y sprint_speed_fps reaction_time
    charge_bonus 122 0 interceptInit le_rfl (Or.inl rfl)

/-- Counterexample for C4 as stated: for the rolling state `c4GB` with
landing speed 0 mph and landing time 1 s, the search breaks at the very
first sample (speed below 0.1 mph) and returns the placeholder
`ball_time = 0`, which is strictly earlier than the landing time. -/
theorem c4_counterexample :
    (find_fielder_interception c4GB 0 0 20 0.3 0).ball_time < c4GB.landing_time := by
  unfold find_fielder_interception
  rw [show (122 : ℕ) = 121 + 1 from rfl]
  rw [interceptLoop]
  rw [if_pos (by norm_num : (0 : ℝ) ≤ 6)]
  rw [show ball_position_at_time c4GB 0 = (⟨0, 0⟩, 0) by
    rw [ball_position_at_time, if_pos le_rfl]
    rfl]
  rw [if_pos (by norm_num : ((⟨0, 0⟩, (0 : ℝ)) : V2 × ℝ).2 < 0.1)]
  norm_num [interceptInit, c4GB]

/-- Claim C6: for non-negative landing speed and friction, the speed
returned by the rolling-position query is non-increasing in elapsed time,
never negative, and exactly 0 at and after the stop time (initial speed
divided by total deceleration). -/
theorem c6_rolling_speed (gb : GroundBallResult) (t1 t2 : ℝ)
    (hv : 0 ≤ gb.landing_velocity_mph) (hf : 0 ≤ gb.friction) (h12 : t1 ≤ t2) :
    (ball_position_at_time gb t2).2 ≤ (ball_position_at_time gb t1).2 ∧
    0 ≤ (ball_position_at_time gb t2).2 ∧
    (rollingStopTime gb ≤ t1 → (ball_position_at_time gb t1).2 = 0) := by
  set D := GRAVITY * METERS_TO_FEET * gb.friction + GROUND_BALL_AIR_RESISTANCE with hD
  set v0 := gb.landing_velocity_mph * 5280 / 3600 with hv0
  have hDpos : 0 < D := by
    have h1 : 0 ≤ GRAVITY * METERS_TO_FEET * gb.friction :=
      mul_nonneg (by norm_num [GRAVITY, METERS_TO_FEET]) hf
    have h2 : (0 : ℝ) < GROUND_BALL_AIR_RESISTANCE := by
      norm_num [GROUND_BALL_AIR_RESISTANCE]
    rw [hD]
    linarith
  have hv0n : 0 ≤ v0 := by
    rw [hv0]
    positivity
  have hstop : rollingStopTime gb = v0 / D := rfl
  have hspeed0 : ∀ t : ℝ, t ≤ 0 →
      (ball_position_at_time gb t).2 = gb.landing_velocity_mph := by
    intro t ht
    rw [ball_position_at_time, if_pos ht]
  have hspeed : ∀ t : ℝ, ¬ t ≤ 0 →
      (ball_position_at_time gb t).2 = max (v0 - D * min t (v0 / D)) 0 * 3600 / 5280 := by
    intro t ht
    rw [ball_position_at_time, if_neg ht]
  have hback : v0 * 3600 / 5280 = gb.landing_velocity_mph := by
    rw [hv0]
    ring
  have hmono : (ball_position_at_time gb t2).2 ≤ (ball_position_at_time gb t1).2 := by
    by_cases ht1 : t1 ≤ 0
    · by_cases ht2 : t2 ≤ 0
      · rw [hspeed0 t1 ht1, hspeed0 t2 ht2]
      · rw [hspeed0 t1 ht1, hspeed t2 ht2]
        have hmin0 : 0 ≤ min t2 (v0 / D) :=
          le_min (by linarith [not_le.mp ht2]) (div_nonneg hv0n hDpos.le)
        have h1 : v0 - D * min t2 (v0 / D) ≤ v0 := by
          nlinarith [mul_nonneg hDpos.le hmin0]
        have h2 : max (v0 - D * min t2 (v0 / D)) 0 ≤ v0 := max_le h1 hv0n
        have h3 : max (v0 - D * min t2 (v0 / D)) 0 * 3600 / 5280 ≤ v0 * 3600 / 5280 := by
          linarith
        linarith [hback]
    · have ht2 : ¬ t2 ≤ 0 := by
        have := not_le.mp ht1
        intro h
        linarith
      rw [hspeed t1 ht1, hspeed t2 ht2]
      have hmm : min t1 (v0 / D) ≤ min t2 (v0 / D) := min_le_min h12 le_rfl
      have h1 : v0 - D * min t2 (v0 / D) ≤ v0 - D * min t1 (v0 / D) := by
        nlinarith [mul_le_mul_of_nonneg_left hmm hDpos.le]
      have h2 := max_le_max h1 (le_refl (0 : ℝ))
      linarith
  have hnn : 0 ≤ (ball_position_at_time gb t2).2 := by
    by_cases ht2 : t2 ≤ 0
    · rw [hspeed0 t2 ht2]
      exact hv
    · rw [hspeed t2 ht2]
      have : (0 : ℝ) ≤ max (v0 - D * min t2 (v0 / D)) 0 := le_max_right _ _
      linarith
  refine ⟨hmono, hnn, fun hst => ?_⟩
  rw [hstop] at hst
  by_cases ht1 : t1 ≤ 0
  · have h0 : v0 / D ≤ 0 := le_trans hst ht1
    have h1 : 0 ≤ v0 / D := div_nonneg hv0n hDpos.le
    have h2 : v0 / D = 0 := le_antisymm h0 h1
    have h3 : v0 = 0 := by
      rcases div_eq_zero_iff.mp h2 with h | h
      · exact h
      · exact absurd h hDpos.ne'
    have h4 : gb.landing_velocity_mph = 0 := by
      rw [hv0] at h3
      linarith
    rw [hspeed0 t1 ht1, h4]
  · rw [hspeed t1 ht1]
    rw [min_eq_right hst]
    have hcancel : v0 - D * (v0 / D) = 0 := by
      field_simp
    rw [hcancel]
    norm_num

/-- Witness for C6 at the concrete rolling state with landing speed 10 mph
and friction 0.3, queried at times 2 and 3. -/
theorem c6_rolling_speed_witness :
    (ball_position_at_time ⟨⟨0, 0⟩, 10, ⟨1, 0⟩, 0, 0.3, 0⟩ 3).2 ≤
      (ball_position_at_time ⟨⟨0, 0⟩, 10, ⟨1, 0⟩, 0, 0.3, 0⟩ 2).2 ∧
    0 ≤ (ball_position_at_time ⟨⟨0, 0⟩, 10, ⟨1, 0⟩, 0, 0.3, 0⟩ 3).2 ∧
    (rollingStopTime ⟨⟨0, 0⟩, 10, ⟨1, 0⟩, 0, 0.3, 0⟩ ≤ 2 →
      (ball_position_at_time ⟨⟨0, 0⟩, 10, ⟨1, 0⟩, 0, 0.3, 0⟩ 2).2 = 0) :=
  c6_rolling_speed ⟨⟨0, 0⟩, 10, ⟨1, 0⟩, 0, 0.3, 0⟩ 2 3 (by norm_num) (by norm_num)
    (by norm_num)

/-- Arithmetic core of the interpolation-weight bound: if the cell index
is the floor of `(c - lo) / step` clamped above by `bound`, and
`(c - lo) / step` is at most `bound + 1`, then the fractional offset lies
in `[0, 1]`. -/
theorem frac_mem_of_floor_clamp (c lo step : ℝ) (i0 bound : ℕ)
    (hstep : 0 < step) (hlo : lo ≤ c)
    (hi0 : i0 = Nat.floor ((c - lo) / step))
    (hup : (c - lo) / step ≤ (bound : ℝ) + 1) :
    0 ≤ (c - (lo + ((min i0 bound : ℕ) : ℝ) * step)) / step ∧
    (c - (lo + ((min i0 bound : ℕ) : ℝ) * step)) / step ≤ 1 := by
  have hq0 : 0 ≤ (c - lo) / step := div_nonneg (by linarith) hstep.le
  have hfe : (c - (lo + ((min i0 bound : ℕ) : ℝ) * step)) / step
      = (c - lo) / step - ((min i0 bound : ℕ) : ℝ) := by
    field_simp
    ring
  rw [hfe]
  have hle : ((min i0 bound : ℕ) : ℝ) ≤ (c - lo) / step := by
    calc ((min i0 bound : ℕ) : ℝ) ≤ (i0 : ℝ) := by exact_mod_cast min_le_left i0 bound
      _ ≤ (c - lo) / step := by
          rw [hi0]
          exact Nat.floor_le hq0
  refine ⟨by linarith, ?_⟩
  rcases le_total i0 bound with hm | hm
  · rw [min_eq_left hm]
    have hlt := Nat.lt_floor_add_one ((c - lo) / step)
    rw [← hi0] at hlt
    linarith
  · rw [min_eq_right hm]
    linarith

/-- With at least 55 rows the velocity interpolation weight lies in
`[0, 1]`. -/
theorem lookup_v_frac_mem (velocity : ℝ) (nrows : ℕ) (h : 55 ≤ nrows) :
    0 ≤ lookup_v_frac velocity nrows ∧ lookup_v_frac velocity nrows ≤ 1 := by
  have hlo : LUT_V_MIN ≤ rclamp velocity LUT_V_MIN (LUT_V_MAX - LUT_V_STEP) :=
    le_min (le_max_right _ _) (by norm_num [LUT_V_MIN, LUT_V_MAX, LUT_V_STEP])
  have hb : (53 : ℝ) ≤ ((nrows - 2 : ℕ) : ℝ) := by
    have h2 : (53 : ℕ) ≤ nrows - 2 := by omega
    exact_mod_cast h2
  have hup : (rclamp velocity LUT_V_MIN (LUT_V_MAX - LUT_V_STEP) - LUT_V_MIN) / LUT_V_STEP
      ≤ ((nrows - 2 : ℕ) : ℝ) + 1 := by
    have h59 : rclamp velocity LUT_V_MIN (LUT_V_MAX - LUT_V_STEP) ≤ LUT_V_MAX - LUT_V_STEP :=
      min_le_right _ _
    simp only [LUT_V_MIN, LUT_V_MAX, LUT_V_STEP] at h59 ⊢
    norm_num at h59 ⊢
    linarith
  exact frac_mem_of_floor_clamp (rclamp velocity LUT_V_MIN (LUT_V_MAX - LUT_V_STEP))
    LUT_V_MIN LUT_V_STEP
    (Nat.floor ((rclamp velocity LUT_V_MIN (LUT_V_MAX - LUT_V_STEP) - LUT_V_MIN) / LUT_V_STEP))
    (nrows - 2) (by norm_num [LUT_V_STEP]) hlo rfl hup

/-- With at least 80 columns the spin interpolation weight lies in
`[0, 1]`. -/
theorem lookup_s_frac_mem (spin_rpm : ℝ) (ncols : ℕ) (h : 80 ≤ ncols) :
    0 ≤ lookup_s_frac spin_rpm ncols ∧ lookup_s_frac spin_rpm ncols ≤ 1 := by
  have hlo : LUT_S_MIN ≤ rclamp spin_rpm LUT_S_MIN (LUT_S_MAX - LUT_S_STEP) :=
    le_min (le_max_right _ _) (by norm_num [LUT_S_MIN, LUT_S_MAX, LUT_S_STEP])
  have hb : (78 : ℝ) ≤ ((ncols - 2 : ℕ) : ℝ) := by
    have h2 : (78 : ℕ) ≤ ncols - 2 := by omega
    exact_mod_cast h2
  have hup : (rclamp spin_rpm LUT_S_MIN (LUT_S_MAX - LUT_S_STEP) - LUT_S_MIN) / LUT_S_STEP
      ≤ ((ncols - 2 : ℕ) : ℝ) + 1 := by
    have h3950 : rclamp spin_rpm LUT_S_MIN (LUT_S_MAX - LUT_S_STEP) ≤ LUT_S_MAX - LUT_S_STEP :=
      min_le_right _ _
    simp only [LUT_S_MIN, LUT_S_MAX, LUT_S_STEP] at h3950 ⊢
    norm_num at h3950 ⊢
    linarith
  exact frac_mem_of_floor_clamp (rclamp spin_rpm LUT_S_MIN (LUT_S_MAX - LUT_S_STEP))
    LUT_S_MIN LUT_S_STEP
    (Nat.floor ((rclamp spin_rpm LUT_S_MIN (LUT_S_MAX - LUT_S_STEP) - LUT_S_MIN) / LUT_S_STEP))
    (ncols - 2) (by norm_num [LUT_S_STEP]) hlo rfl hup

/-- A bilinear combination with weights in `[0, 1]` stays between any
common bounds of its four corner values. -/
theorem bilinear_bounds (vf sf a b c d m M : ℝ)
    (hvf0 : 0 ≤ vf) (hvf1 : vf ≤ 1) (hsf0 : 0 ≤ sf) (hsf1 : sf ≤ 1)
    (ham : m ≤ a) (haM : a ≤ M) (hbm : m ≤ b) (hbM : b ≤ M)
    (hcm : m ≤ c) (hcM : c ≤ M) (hdm : m ≤ d) (hdM : d ≤ M) :
    m ≤ a * (1 - vf) * (1 - sf) + b * vf * (1 - sf) + c * (1 - vf) * sf + d * vf * sf ∧
    a * (1 - vf) * (1 - sf) + b * vf * (1 - sf) + c * (1 - vf) * sf + d * vf * sf ≤ M := by
  have h1 : 0 ≤ 1 - vf := by linarith
  have h2 : 0 ≤ 1 - sf := by linarith
  constructor
  · nlinarith [mul_nonneg (mul_nonneg (sub_nonneg.mpr ham) h1) h2,
      mul_nonneg (mul_nonneg (sub_nonneg.mpr hbm) hvf0) h2,
      mul_nonneg (mul_nonneg (sub_nonneg.mpr hcm) h1) hsf0,
      mul_nonneg (mul_nonneg (sub_nonneg.mpr hdm) hvf0) hsf0]
  · nlinarith [mul_nonneg (mul_nonneg (sub_nonneg.mpr haM) h1) h2,
      mul_nonneg (mul_nonneg (sub_nonneg.mpr hbM) hvf0) h2,
      mul_nonneg (mul_nonneg (sub_nonneg.mpr hcM) h1) hsf0,
      mul_nonneg (mul_nonneg (sub_nonneg.mpr hdM) hvf0) hsf0]

/-- Claim C2 (amended): inputs are clamped to `[Vmin, Vmax - Vstep]` and
`[Smin, Smax - Sstep]`, and for every table with at least 2 rows and 2
columns the four corner indices stay inside the table.  The returned
values lie between uniform bounds of the table entries provided the table
has at least the nominal 55 rows and 80 columns of the fixed grid; for
smaller tables the extra index clamp to `rows - 2`/`cols - 2` can push an
interpolation weight above 1 and the result can extrapolate outside the
table's range. -/
theorem c2_lookup_bounds_amended (velocity spin_rpm : ℝ) (cd_table cl_table : Mat)
    (mCd MCd mCl MCl : ℝ) (hr : 2 ≤ cd_table.nrows) (hc : 2 ≤ cd_table.ncols) :
    (LUT_V_MIN ≤ rclamp velocity LUT_V_MIN (LUT_V_MAX - LUT_V_STEP) ∧
     rclamp velocity LUT_V_MIN (LUT_V_MAX - LUT_V_STEP) ≤ LUT_V_MAX - LUT_V_STEP ∧
     LUT_S_MIN ≤ rclamp spin_rpm LUT_S_MIN (LUT_S_MAX - LUT_S_STEP) ∧
     rclamp spin_rpm LUT_S_MIN (LUT_S_MAX - LUT_S_STEP) ≤ LUT_S_MAX - LUT_S_STEP) ∧
    (lookup_v_idx velocity cd_table.nrows + 1 < cd_table.nrows ∧
     lookup_s_idx spin_rpm cd_table.ncols + 1 < cd_table.ncols) ∧
    (55 ≤ cd_table.nrows → 80 ≤ cd_table.ncols →
     (∀ i j, i < cd_table.nrows → j < cd_table.ncols →
        mCd ≤ cd_table.entry i j ∧ cd_table.entry i j ≤ MCd) →
     (∀ i j, i < cd_table.nrows → j < cd_table.ncols →
        mCl ≤ cl_table.entry i j ∧ cl_table.entry i j ≤ MCl) →
     (mCd ≤ (lookup_cd_cl velocity spin_rpm cd_table cl_table).1 ∧
      (lookup_cd_cl velocity spin_rpm cd_table cl_table).1 ≤ MCd) ∧
     (mCl ≤ (lookup_cd_cl velocity spin_rpm cd_table cl_table).2 ∧
      (lookup_cd_cl velocity spin_rpm cd_table cl_table).2 ≤ MCl)) := by
  have hvle : lookup_v_idx velocity cd_table.nrows ≤ cd_table.nrows - 2 := by
    simp only [lookup_v_idx]
    exact min_le_right _ _
  have hsle : lookup_s_idx spin_rpm cd_table.ncols ≤ cd_table.ncols - 2 := by
    simp only [lookup_s_idx]
    exact min_le_right _ _
  have hvlt : lookup_v_idx velocity cd_table.nrows + 1 < cd_table.nrows := by omega
  have hslt : lookup_s_idx spin_rpm cd_table.ncols + 1 < cd_table.ncols := by omega
  refine ⟨⟨le_min (le_max_right _ _) (by norm_num [LUT_V_MIN, LUT_V_MAX, LUT_V_STEP]),
    min_le_right _ _,
    le_min (le_max_right _ _) (by norm_num [LUT_S_MIN, LUT_S_MAX, LUT_S_STEP]),
    min_le_right _ _⟩, ⟨hvlt, hslt⟩, fun h55 h80 hcd hcl => ?_⟩
  obtain ⟨hvf0, hvf1⟩ := lookup_v_frac_mem velocity cd_table.nrows h55
  obtain ⟨hsf0, hsf1⟩ := lookup_s_frac_mem spin_rpm cd_table.ncols h80
  have h00 := hcd _ _ (by omega : lookup_v_idx velocity cd_table.nrows < cd_table.nrows)
    (by omega : lookup_s_idx spin_rpm cd_table.ncols < cd_table.ncols)
  have h10 := hcd _ _ hvlt
    (by omega : lookup_s_idx spin_rpm cd_table.ncols < cd_table.ncols)
  have h01 := hcd _ _ (by omega : lookup_v_idx velocity cd_table.nrows < cd_table.nrows)
    hslt
  have h11 := hcd _ _ hvlt hslt
  have g00 := hcl _ _ (by omega : lookup_v_idx velocity cd_table.nrows < cd_table.nrows)
    (by omega : lookup_s_idx spin_rpm cd_table.ncols < cd_table.ncols)
  have g10 := hcl _ _ hvlt
    (by omega : lookup_s_idx spin_rpm cd_table.ncols < cd_table.ncols)
  have g01 := hcl _ _ (by omega : lookup_v_idx velocity cd_table.nrows < cd_table.nrows)
    hslt
  have g11 := hcl _ _ hvlt hslt
  constructor
  · exact bilinear_bounds (lookup_v_frac velocity cd_table.nrows)
      (lookup_s_frac spin_rpm cd_table.ncols) _ _ _ _ mCd MCd hvf0 hvf1 hsf0 hsf1
      h00.1 h00.2 h10.1 h10.2 h01.1 h01.2 h11.1 h11.2
  · exact bilinear_bounds (lookup_v_frac velocity cd_table.nrows)
      (lookup_s_frac spin_rpm cd_table.ncols) _ _ _ _ mCl MCl hvf0 hvf1 hsf0 hsf1
      g00.1 g00.2 g10.1 g10.2 g01.1 g01.2 g11.1 g11.2

/-- Witness for C2 at velocity 30, spin 1000, the all-zero 55 by 80 table,
and bounds `0 ≤ entry ≤ 0`. -/
theorem c2_lookup_bounds_witness :
    (lookup_v_idx 30 zeroMat.nrows + 1 < zeroMat.nrows ∧
     lookup_s_idx 1000 zeroMat.ncols + 1 < zeroMat.ncols) ∧
    ((0 : ℝ) ≤ (lookup_cd_cl 30 1000 zeroMat zeroMat).1 ∧
     (lookup_cd_cl 30 1000 zeroMat zeroMat).1 ≤ 0) ∧
    ((0 : ℝ) ≤ (lookup_cd_cl 30 1000 zeroMat zeroMat).2 ∧
     (lookup_cd_cl 30 1000 zeroMat zeroMat).2 ≤ 0) := by
  have h := c2_lookup_bounds_amended 30 1000 zeroMat zeroMat 0 0 0 0
    (by norm_num [zeroMat]) (by norm_num [zeroMat])
  have hval := h.2.2 (by norm_num [zeroMat]) (by norm_num [zeroMat])
    (fun i j _ _ => by simp [zeroMat]) (fun i j _ _ => by simp [zeroMat])
  exact ⟨h.2.1, hval.1, hval.2⟩

/-- Counterexample for C2 as stated: on the 2 by 2 table `c2Mat` with
entries in `[0, 1]`, looking up velocity 59 returns `Cd = 54`, far outside
the table's global range — the index clamp to `rows - 2 = 0` makes the
velocity interpolation weight 54. -/
theorem c2_counterexample :
    c2Mat.entry 0 0 = 0 ∧ c2Mat.entry 0 1 = 0 ∧ c2Mat.entry 1 0 = 1 ∧
    c2Mat.entry 1 1 = 1 ∧ 2 ≤ c2Mat.nrows ∧ 2 ≤ c2Mat.ncols ∧
    (lookup_cd_cl 59 0 c2Mat c2Mat).1 = 54 ∧
    ¬ (lookup_cd_cl 59 0 c2Mat c2Mat).1 ≤ 1 := by
  have hv : rclamp (59 : ℝ) LUT_V_MIN (LUT_V_MAX - LUT_V_STEP) = 59 := by
    norm_num [rclamp, LUT_V_MIN, LUT_V_MAX, LUT_V_STEP]
  have hs : rclamp (0 : ℝ) LUT_S_MIN (LUT_S_MAX - LUT_S_STEP) = 0 := by
    norm_num [rclamp, LUT_S_MIN, LUT_S_MAX, LUT_S_STEP]
  have hvi : lookup_v_idx 59 c2Mat.nrows = 0 := by
    simp only [lookup_v_idx, hv, c2Mat]
    norm_num [LUT_V_MIN, LUT_V_STEP]
  have hsi : lookup_s_idx 0 c2Mat.ncols = 0 := by
    simp only [lookup_s_idx, hs, c2Mat]
    norm_num [LUT_S_MIN, LUT_S_STEP]
  have hvf : lookup_v_frac 59 c2Mat.nrows = 54 := by
    simp only [lookup_v_frac, hv, hvi]
    norm_num [LUT_V_MIN, LUT_V_STEP]
  have hsf : lookup_s_frac 0 c2Mat.ncols = 0 := by
    simp only [lookup_s_frac, hs, hsi]
    norm_num [LUT_S_MIN, LUT_S_STEP]
  have hval : (lookup_cd_cl 59 0 c2Mat c2Mat).1 = 54 := by
    simp only [lookup_cd_cl, hvi, hsi, hvf, hsf]
    norm_num [c2Mat]
  refine ⟨by norm_num [c2Mat], by norm_num [c2Mat], by norm_num [c2Mat],
    by norm_num [c2Mat], by norm_num [c2Mat], by norm_num [c2Mat], hval, ?_⟩
  rw [hval]
  norm_num

/-- The bouncing phase never destroys a positive horizontal speed: the
reflection branch leaves it unchanged and each hop scales it by the
positive factor `1 - friction * 0.1`. -/
theorem bounceLoop_vh_pos (cor friction g : ℝ) (direction : V2)
    (hfr : 0 < 1 - friction * 0.1) :
    ∀ (fuel : ℕ) (st : BounceState), 0 < st.vh →
      0 < (bounceLoop cor friction g direction fuel st).vh := by
  intro fuel
  induction fuel with
  | zero =>
    intro st h
    simpa [bounceLoop] using h
  | succ f ih =>
    intro st h
    simp only [bounceLoop]
    split_ifs with h1 h2
    · exact ih _ (mul_pos h hfr)
    · exact ih _ h
    · exact h

/-- Claim C8: `simulate_ground_ball` with `vx_mph = 80`, `vy_mph = 0`,
`vz_mph = -5` on grass yields a strictly positive landing speed, friction
equal to `ROLLING_FRICTION_GRASS = 0.30`, and travel direction exactly
`(1, 0)`, for every launch position and spin rate. -/
theorem c8_ground_ball_scenario (x0 y0 spin_rpm : ℝ) :
    0 < (simulate_ground_ball_initial x0 y0 80 0 (-5) spin_rpm true).landing_velocity_mph ∧
    (simulate_ground_ball_initial x0 y0 80 0 (-5) spin_rpm true).friction =
      ROLLING_FRICTION_GRASS ∧
    ROLLING_FRICTION_GRASS = 0.30 ∧
    (simulate_ground_ball_initial x0 y0 80 0 (-5) spin_rpm true).direction = ⟨1, 0⟩ := by
  have hv : Real.sqrt ((80 : ℝ) * 5280 / 3600 * (80 * 5280 / 3600)
      + 0 * 5280 / 3600 * (0 * 5280 / 3600)) = 80 * 5280 / 3600 := by
    rw [show ((80 : ℝ) * 5280 / 3600 * (80 * 5280 / 3600)
        + 0 * 5280 / 3600 * (0 * 5280 / 3600)) = ((80 : ℝ) * 5280 / 3600) ^ 2 by ring]
    exact Real.sqrt_sq (by norm_num)
  simp only [simulate_ground_ball_initial, hv, if_true]
  rw [if_pos (by norm_num : (1e-6 : ℝ) < 80 * 5280 / 3600)]
  refine ⟨?_, by trivial, by norm_num [ROLLING_FRICTION_GRASS], ?_⟩
  · have hpos := bounceLoop_vh_pos GROUND_BALL_COR_GRASS ROLLING_FRICTION_GRASS
      (GRAVITY * METERS_TO_FEET)
      ⟨80 * 5280 / 3600 / (80 * 5280 / 3600), 0 * 5280 / 3600 / (80 * 5280 / 3600)⟩
      (by norm_num [ROLLING_FRICTION_GRASS]) 3
      ⟨⟨x0, y0⟩, -5 * 5280 / 3600, 80 * 5280 / 3600, 0⟩ (by norm_num)
    have h2 : (0 : ℝ) < 3600 / 5280 := by norm_num
    calc (0 : ℝ) < (bounceLoop GROUND_BALL_COR_GRASS ROLLING_FRICTION_GRASS
          (GRAVITY * METERS_TO_FEET)
          ⟨80 * 5280 / 3600 / (80 * 5280 / 3600), 0 * 5280 / 3600 / (80 * 5280 / 3600)⟩ 3
          ⟨⟨x0, y0⟩, -5 * 5280 / 3600, 80 * 5280 / 3600, 0⟩).vh * 3600 / 5280 := by
            have := mul_pos hpos (show (0 : ℝ) < 3600 by norm_num)
            linarith
      _ = _ := rfl
  · show (⟨(80 : ℝ) * 5280 / 3600 / (80 * 5280 / 3600),
      (0 : ℝ) * 5280 / 3600 / (80 * 5280 / 3600)⟩ : V2) = ⟨1, 0⟩
    norm_num

end TrajectoryRs
